import Mathlib

/-!
Shallow embedding of the two scripts of this repository,
`scripts/generate_gee_tiles.py` (single-layer variant, embedded below with
entry point `main1`) and `scripts/generate_gee_tiles_full.py` (dual-layer
variant, entry point `main_full`).

The remote Earth Engine platform is modelled by an `Env` record giving, for
each external call the scripts make, either its result or the message of the
exception it raises:
  * `initRes`        — `ee.ServiceAccountCredentials(...)` followed by
                       `ee.Initialize(credentials, project=PROJECT_ID)`;
  * `featureCollection id` — `ee.FeatureCollection(id)`;
  * `styleCall id st`      — `<collection id>.style(**st)`;
  * `getMapId id st`       — `<styled layer (id, st)>.getMapId()`, returning
                       a dictionary with a `tile_fetcher` entry (whose
                       `url_format` is the tile URL template) and an optional
                       `mapid` entry (`none` models a response lacking it).
A feature collection is identified by the dataset identifier it was fetched
with, and a styled layer by that identifier paired with the style applied.

Python values flowing into the result dictionaries are modelled by `PyVal`,
`json.dumps(d, indent=2)` by `jsonDumps`, and a whole process run by
`RunOutcome`: the list of strings printed to stdout, the list printed to
stderr, and the exit code (an uncaught exception terminates the process with
exit code 1 and no further output, like the Python interpreter).
-/

/-- `SERVICE_ACCOUNT` constant, identical in both scripts. -/
def SERVICE_ACCOUNT : String := "882446104421-compute@developer.gserviceaccount.com"

/-- `CREDENTIALS_PATH` constant: `os.path.join(os.path.dirname(__file__), '..', 'gee_creds.json')`. -/
def CREDENTIALS_PATH : String := "scripts/../gee_creds.json"

/-- `PROJECT_ID` constant, identical in both scripts. -/
def PROJECT_ID : String := "msads-mba-autumn-2025-team-1"

/-- The keyword arguments passed to `.style(**{...})`. -/
structure Style where
  color : String
  width : Nat
  fillColor : String
deriving DecidableEq, Repr

/-- The `tile_fetcher` entry of the dictionary returned by `getMapId()`. -/
structure TileFetcher where
  url_format : String
deriving DecidableEq, Repr

/-- The dictionary returned by `getMapId()`: a `tile_fetcher` entry and an
optional `mapid` entry (`none` models a response lacking `'mapid'`, read by
the scripts with `.get('mapid', 'unknown')`). -/
structure MapIdDict where
  tile_fetcher : TileFetcher
  mapid : Option String
deriving DecidableEq, Repr

/-- The behaviour of the remote platform during one run: the outcome of every
external call the scripts can make.  `Except.error e` models the call raising
an exception whose message is `e`. -/
structure Env where
  initRes : Except String Unit
  featureCollection : String → Except String Unit
  styleCall : String → Style → Except String Unit
  getMapId : String → Style → Except String MapIdDict

/-- One layer's entry in the full script's `results` dictionary:
`{'tile_url': ..., 'map_id': ...}`. -/
structure LayerRes where
  tile_url : String
  map_id : String
deriving DecidableEq, Repr

/-- Python values appearing in the scripts' result dictionaries. -/
inductive PyVal where
  | pybool : Bool → PyVal
  | pystr : String → PyVal
  | pyobj : List (String × LayerRes) → PyVal
deriving DecidableEq, Repr

/-- A Python dictionary with string keys, in insertion order. -/
abbrev PyDict := List (String × PyVal)

/-- Python dictionary lookup `d[k]` (`none` models a `KeyError`). -/
def dictGet {α : Type} (k : String) : List (String × α) → Option α
  | [] => none
  | (k2, v) :: rest => if k = k2 then some v else dictGet k rest

/-- Python truthiness of a `PyVal`, as tested by `if result['success']:`. -/
def PyVal.truthy : PyVal → Bool
  | .pybool b => b
  | .pystr s => !s.isEmpty
  | .pyobj es => !es.isEmpty

/-- A single-quote character, as used by the Python `repr` of dictionaries. -/
def pySq : String := String.singleton (Char.ofNat 39)

/-- Rendering of a `LayerRes` dictionary by `repr`, for f-string interpolation. -/
def reprLayerRes (r : LayerRes) : String :=
  "\x7b" ++ pySq ++ "tile_url" ++ pySq ++ ": " ++ pySq ++ r.tile_url ++ pySq ++ ", "
    ++ pySq ++ "map_id" ++ pySq ++ ": " ++ pySq ++ r.map_id ++ pySq ++ "\x7d"

/-- Rendering of a `PyVal` by `str`, as an f-string would interpolate it. -/
def pyStrOf : PyVal → String
  | .pybool b => if b then "True" else "False"
  | .pystr s => s
  | .pyobj es =>
      "\x7b" ++ String.intercalate ", "
        (es.map (fun e => pySq ++ e.1 ++ pySq ++ ": " ++ reprLayerRes e.2)) ++ "\x7d"

/-- One hexadecimal digit, lowercase, as produced by `json.dumps`. -/
def hexDigit (n : Nat) : Char :=
  if n < 10 then Char.ofNat (48 + n) else Char.ofNat (87 + n)

/-- Four-digit lowercase hexadecimal rendering of `n % 65536`. -/
def hex4 (n : Nat) : String :=
  String.mk [hexDigit (n / 4096 % 16), hexDigit (n / 256 % 16),
             hexDigit (n / 16 % 16), hexDigit (n % 16)]

/-- JSON escaping of one character, following `json.dumps` with its default
`ensure_ascii=True`: printable ASCII is kept, the short escapes are used for
the usual control characters, and everything else becomes `\uXXXX` (with a
surrogate pair above the basic multilingual plane). -/
def jsonEscapeChar (c : Char) : String :=
  if c = '"' then "\\\""
  else if c = '\\' then "\\\\"
  else if c = '\n' then "\\n"
  else if c = '\t' then "\\t"
  else if c = '\r' then "\\r"
  else if c.toNat = 8 then "\\b"
  else if c.toNat = 12 then "\\f"
  else if c.toNat < 32 ∨ c.toNat > 126 then
    if c.toNat < 65536 then "\\u" ++ hex4 c.toNat
    else
      let n := c.toNat - 65536
      "\\u" ++ hex4 (55296 + n / 1024) ++ "\\u" ++ hex4 (56320 + n % 1024)
  else String.singleton c

/-- JSON escaping of a whole string. -/
def jsonEscape (s : String) : String :=
  String.join (s.data.map jsonEscapeChar)

/-- A JSON string literal: `jsonEscape` between double quotes. -/
def jsonStr (s : String) : String :=
  "\"" ++ jsonEscape s ++ "\""

/-- `json.dumps` rendering of one `LayerRes` dictionary nested at
indentation prefix `ind`. -/
def renderLayerRes (ind : String) (r : LayerRes) : String :=
  "\x7b\n" ++ ind ++ "  " ++ jsonStr "tile_url" ++ ": " ++ jsonStr r.tile_url ++ ",\n"
    ++ ind ++ "  " ++ jsonStr "map_id" ++ ": " ++ jsonStr r.map_id ++ "\n" ++ ind ++ "\x7d"

/-- `json.dumps` rendering of a dictionary of `LayerRes` values nested at
indentation prefix `ind`. -/
def renderObj (ind : String) (entries : List (String × LayerRes)) : String :=
  match entries with
  | [] => "\x7b\x7d"
  | _ =>
    "\x7b\n" ++ String.intercalate ",\n"
      (entries.map (fun e => ind ++ "  " ++ jsonStr e.1 ++ ": " ++ renderLayerRes (ind ++ "  ") e.2))
    ++ "\n" ++ ind ++ "\x7d"

/-- `json.dumps` rendering of one `PyVal` at indentation prefix `ind`. -/
def renderVal (ind : String) : PyVal → String
  | .pybool b => if b then "true" else "false"
  | .pystr s => jsonStr s
  | .pyobj es => renderObj ind es

/-- `json.dumps(d, indent=2)`: the exact string printed to stdout. -/
def jsonDumps (d : PyDict) : String :=
  match d with
  | [] => "\x7b\x7d"
  | _ =>
    "\x7b\n" ++ String.intercalate ",\n"
      (d.map (fun kv => "  " ++ jsonStr kv.1 ++ ": " ++ renderVal "  " kv.2))
    ++ "\n\x7d"

/-- The outcome of one process run: the strings passed to `print` on stdout,
those passed to `print(..., file=sys.stderr)`, and the exit code. -/
structure RunOutcome where
  stdout : List String
  stderr : List String
  exitCode : Nat
deriving DecidableEq, Repr

/-- `authenticate_gee()`, identical in both scripts: one authentication
attempt; returns `True`/`False` together with the single diagnostic line it
prints to stderr. -/
def authenticate_gee (env : Env) : Bool × List String :=
  match env.initRes with
  | .ok _ => (true, ["✓ Successfully authenticated with Google Earth Engine"])
  | .error e => (false, ["✗ Failed to authenticate with GEE: " ++ e])

/-- The style dictionary applied to census tracts in both scripts. -/
def tractsStyle : Style := { color := "1f77b4", width := 1, fillColor := "00000000" }

/-- The style dictionary applied to block groups in the full script. -/
def bgStyle : Style := { color := "9333ea", width := 1, fillColor := "00000000" }

/-- `get_census_tracts_layer()`, identical in both scripts: fetch
`TIGER/2010/Tracts_DP1` and style it; either call may raise. -/
def get_census_tracts_layer (env : Env) : Except String (String × Style) :=
  match env.featureCollection "TIGER/2010/Tracts_DP1" with
  | .error e => .error e
  | .ok _ =>
    match env.styleCall "TIGER/2010/Tracts_DP1" tractsStyle with
    | .error e => .error e
    | .ok _ => .ok ("TIGER/2010/Tracts_DP1", tractsStyle)

/-- The nested `try/except` chain at the start of `get_block_groups_layer()`
in the full script: try `TIGER/2010/BG`, on any exception try
`TIGER/2010/BlockGroups`, on any exception print the warning and fetch
`TIGER/2010/Blocks_DP1` outside of any `try` (so a failure there
propagates).  Returns the selected dataset identifier together with the
stderr lines printed along the way. -/
def bgFetchChain (env : Env) : Except String String × List String :=
  match env.featureCollection "TIGER/2010/BG" with
  | .ok _ => (.ok "TIGER/2010/BG", ["✓ Using TIGER/2010/BG dataset"])
  | .error _ =>
    match env.featureCollection "TIGER/2010/BlockGroups" with
    | .ok _ => (.ok "TIGER/2010/BlockGroups", ["✓ Using TIGER/2010/BlockGroups dataset"])
    | .error _ =>
      match env.featureCollection "TIGER/2010/Blocks_DP1" with
      | .ok _ => (.ok "TIGER/2010/Blocks_DP1", ["⚠ Block groups dataset not found, using blocks"])
      | .error e => (.error e, ["⚠ Block groups dataset not found, using blocks"])

/-- `get_block_groups_layer()` of the full script: the fallback chain
followed by styling the selected collection. -/
def get_block_groups_layer (env : Env) : Except String (String × Style) × List String :=
  match bgFetchChain env with
  | (.error e, log) => (.error e, log)
  | (.ok ds, log) =>
    match env.styleCall ds bgStyle with
    | .error e => (.error e, log)
    | .ok _ => (.ok (ds, bgStyle), log)

/-- The fallible prefix of the single script's `generate_tile_url()` body
(and of the tracts half of the full script's `generate_tile_urls()`):
`layer = get_census_tracts_layer(); map_id_dict = layer.getMapId()`. -/
def tractsChain (env : Env) : Except String MapIdDict :=
  match get_census_tracts_layer env with
  | .error e => .error e
  | .ok layer => env.getMapId layer.1 layer.2

/-- The fallible block-groups half of the full script's
`generate_tile_urls()`: `bg_layer = get_block_groups_layer();
bg_map = bg_layer.getMapId()`, with the stderr lines printed on the way. -/
def bgChain (env : Env) : Except String MapIdDict × List String :=
  match get_block_groups_layer env with
  | (.error e, log) => (.error e, log)
  | (.ok layer, log) => (env.getMapId layer.1 layer.2, log)

/-- `generate_tile_url()` of the single script.  The whole body is inside
`try/except Exception`, so the function itself never raises: it returns the
success dictionary `{'success': True, 'tile_url': ..., 'map_id': ...}` (the
`mapid` entry read with `.get('mapid', 'unknown')`) or the failure
dictionary `{'success': False, 'error': str(e)}`. -/
def generate_tile_url (env : Env) : Except String PyDict :=
  .ok (match tractsChain env with
    | .ok md =>
      [("success", .pybool true),
       ("tile_url", .pystr md.tile_fetcher.url_format),
       ("map_id", .pystr (md.mapid.getD "unknown"))]
    | .error e =>
      [("success", .pybool false), ("error", .pystr e)])

/-- `generate_tile_urls()` of the full script, with the stderr lines it
prints.  The whole body is inside `try/except Exception`, so the function
itself never raises; tracts are processed before block groups, and the first
exception aborts the body and yields `{'success': False, 'error': str(e)}`. -/
def generate_tile_urls (env : Env) : Except String PyDict × List String :=
  match tractsChain env with
  | .error e =>
      (.ok [("success", .pybool false), ("error", .pystr e)],
       ["Generating tile URL for census tracts..."])
  | .ok tmd =>
    let tracts : LayerRes := ⟨tmd.tile_fetcher.url_format, tmd.mapid.getD "unknown"⟩
    match bgChain env with
    | (.error e, blog) =>
        (.ok [("success", .pybool false), ("error", .pystr e)],
         ["Generating tile URL for census tracts...",
          "✓ Census tracts tile URL generated",
          "Generating tile URL for block groups..."] ++ blog)
    | (.ok bmd, blog) =>
        (.ok [("success", .pybool true),
              ("data", .pyobj [("tracts", tracts),
                               ("block_groups",
                                ⟨bmd.tile_fetcher.url_format, bmd.mapid.getD "unknown"⟩)])],
         ["Generating tile URL for census tracts...",
          "✓ Census tracts tile URL generated",
          "Generating tile URL for block groups..."] ++ blog
           ++ ["✓ Block groups tile URL generated"])

/-- `main()` of the single script `generate_gee_tiles.py`.  A branch that
would raise an uncaught `KeyError` in Python is modelled as terminating with
exit code 1 and no further output; every dictionary actually produced by
`generate_tile_url` makes those branches unreachable. -/
def main1 (env : Env) : RunOutcome :=
  match authenticate_gee env with
  | (false, alog) => ⟨[], alog, 1⟩
  | (true, alog) =>
    let log1 := alog ++ ["Generating GEE tile URL for census tract boundaries..."]
    match generate_tile_url env with
    | .error _ => ⟨[], log1, 1⟩
    | .ok result =>
      match dictGet "success" result with
      | none => ⟨[], log1, 1⟩
      | some v =>
        if v.truthy then
          ⟨[jsonDumps result], log1 ++ ["✓ Tile URL generated successfully"], 0⟩
        else
          match dictGet "error" result with
          | none => ⟨[], log1, 1⟩
          | some ev =>
            ⟨[], log1 ++ ["✗ Failed to generate tile URL: " ++ pyStrOf ev], 1⟩

/-- `main()` of the full script `generate_gee_tiles_full.py`.  On success it
rebuilds the flat `output` dictionary from `result['data']` and prints it;
as in `main1`, would-be `KeyError` branches terminate with exit code 1. -/
def main_full (env : Env) : RunOutcome :=
  match authenticate_gee env with
  | (false, alog) => ⟨[], alog, 1⟩
  | (true, alog) =>
    let log1 := alog ++ ["\n🌍 Generating GEE tile URLs for TIGER/2010 boundaries...\n"]
    match generate_tile_urls env with
    | (.error _, glog) => ⟨[], log1 ++ glog, 1⟩
    | (.ok result, glog) =>
      let log2 := log1 ++ glog
      match dictGet "success" result with
      | none => ⟨[], log2, 1⟩
      | some v =>
        if v.truthy then
          let log3 := log2 ++ ["\n✅ All tile URLs generated successfully\n"]
          match dictGet "data" result with
          | some (.pyobj entries) =>
            match dictGet "tracts" entries, dictGet "block_groups" entries with
            | some t, some b =>
              let output : PyDict :=
                [("success", .pybool true),
                 ("tracts_tile_url", .pystr t.tile_url),
                 ("tracts_map_id", .pystr t.map_id),
                 ("block_groups_tile_url", .pystr b.tile_url),
                 ("block_groups_map_id", .pystr b.map_id)]
              ⟨[jsonDumps output], log3, 0⟩
            | _, _ => ⟨[], log3, 1⟩
          | _ => ⟨[], log3, 1⟩
        else
          match dictGet "error" result with
          | none => ⟨[], log2, 1⟩
          | some ev =>
            ⟨[], log2 ++ ["\n✗ Failed to generate tile URLs: " ++ pyStrOf ev ++ "\n"], 1⟩

/-- Whether an external call succeeded. -/
def exceptOk {α : Type} : Except String α → Bool
  | .ok _ => true
  | .error _ => false

/-- Whether authentication succeeded in this run. -/
def authOk (env : Env) : Bool := (authenticate_gee env).1

/-- The resolution outcome of the block-groups layer in the full script. -/
def bgResult (env : Env) : Except String MapIdDict := (bgChain env).1

/-- The message of the first layer-resolution failure of the full script's
run, `none` when every layer resolves. -/
def firstFailure (env : Env) : Option String :=
  match tractsChain env with
  | .error e => some e
  | .ok _ =>
    match bgResult env with
    | .error e => some e
    | .ok _ => none

/-- A success-shaped Run Result: stdout is exactly one JSON dump of a
dictionary whose `success` entry is `True`. -/
def successShaped (o : RunOutcome) : Prop :=
  ∃ d : PyDict, o.stdout = [jsonDumps d] ∧ dictGet "success" d = some (.pybool true)

/-- A run in which every external call succeeds: the tracts layer resolves to
the example tile URL and map id, the block-groups layer to a second pair. -/
def envAllOk : Env :=
  { initRes := .ok ()
  , featureCollection := fun _ => .ok ()
  , styleCall := fun _ _ => .ok ()
  , getMapId := fun id _ =>
      if id = "TIGER/2010/Tracts_DP1" then
        .ok ⟨⟨"https://example.com/{z}/{x}/{y}.png"⟩, some "abc123"⟩
      else
        .ok ⟨⟨"https://t2.example/{z}/{x}/{y}.png"⟩, some "bg777"⟩ }

/-- A run in which authentication raises with message `bad creds`. -/
def envAuthFail : Env :=
  { envAllOk with initRes := .error "bad creds" }

/-- A run in which fetching the tracts dataset raises with message `boom`. -/
def envTractsFail : Env :=
  { envAllOk with featureCollection := fun id =>
      if id = "TIGER/2010/Tracts_DP1" then .error "boom" else .ok () }

/-- A run in which fetching `TIGER/2010/BG` raises and the second block-group
candidate `TIGER/2010/BlockGroups` fetches without error. -/
def envBgFallback : Env :=
  { envAllOk with featureCollection := fun id =>
      if id = "TIGER/2010/BG" then .error "nope" else .ok () }

/-- A run in which every `getMapId()` response lacks the `mapid` entry. -/
def envNoMapid : Env :=
  { envAllOk with getMapId := fun _ _ => .ok ⟨⟨"https://u.example/{z}/{x}/{y}.png"⟩, none⟩ }

/-- Claim C7: the Authenticator makes exactly one authentication attempt per
run; on any failure it reports the underlying cause's message, and it writes
exactly one success-or-failure diagnostic line to standard error.  The single
attempt is the one platform call `initRes`, whose outcome fully determines
`authenticate_gee`: failure yields `False` with the one-line diagnostic
carrying the cause's message, success yields `True` with the one-line
success diagnostic. -/
theorem authenticator_single_attempt (env : Env) :
    ((authenticate_gee env).2.length = 1)
    ∧ (∀ e : String, env.initRes = .error e →
        authenticate_gee env =
          (false, ["✗ Failed to authenticate with GEE: " ++ e]))
    ∧ (env.initRes = .ok () →
        authenticate_gee env =
          (true, ["✓ Successfully authenticated with Google Earth Engine"])) := by
  refine ⟨?_, ?_, ?_⟩
  · cases h : env.initRes <;> simp [authenticate_gee, h]
  · intro e h
    simp [authenticate_gee, h]
  · intro h
    simp [authenticate_gee, h]

/-- Witness for C7 at the concrete run `envAuthFail`. -/
theorem authenticator_single_attempt_witness :
    envAuthFail.initRes = .error "bad creds"
    ∧ authenticate_gee envAuthFail =
        (false, ["✗ Failed to authenticate with GEE: bad creds"]) :=
  ⟨rfl, (authenticator_single_attempt envAuthFail).2.1 "bad creds" rfl⟩

/-- Claim C2: whenever the Authenticator fails, the Layer Resolver is never
invoked, nothing is written to standard output, and the process exits with
code 1 — in both scripts.  "Never invoked" is captured by the last conjunct:
the whole run outcome is already determined by the authentication result
alone, independent of every resolver-facing field of the environment. -/
theorem auth_failure_short_circuits (env : Env) (e : String)
    (h : env.initRes = .error e) :
    (main1 env).stdout = [] ∧ (main1 env).exitCode = 1
    ∧ (main_full env).stdout = [] ∧ (main_full env).exitCode = 1
    ∧ (∀ env2 : Env, env2.initRes = env.initRes →
        main1 env2 = main1 env ∧ main_full env2 = main_full env) := by
  refine ⟨?_, ?_, ?_, ?_, ?_⟩
  · simp [main1, authenticate_gee, h]
  · simp [main1, authenticate_gee, h]
  · simp [main_full, authenticate_gee, h]
  · simp [main_full, authenticate_gee, h]
  · intro env2 h2
    rw [h] at h2
    constructor
    · simp [main1, authenticate_gee, h, h2]
    · simp [main_full, authenticate_gee, h, h2]

/-- Witness for C2 at the concrete run `envAuthFail`. -/
theorem auth_failure_short_circuits_witness :
    envAuthFail.initRes = .error "bad creds"
    ∧ ((main1 envAuthFail).stdout = [] ∧ (main1 envAuthFail).exitCode = 1
       ∧ (main_full envAuthFail).stdout = [] ∧ (main_full envAuthFail).exitCode = 1
       ∧ (∀ env2 : Env, env2.initRes = envAuthFail.initRes →
           main1 env2 = main1 envAuthFail ∧ main_full env2 = main_full envAuthFail)) :=
  ⟨rfl, auth_failure_short_circuits envAuthFail "bad creds" rfl⟩

/-- Claim C3: in the block-group fallback chain, if fetching the first
candidate `TIGER/2010/BG` raises and fetching the second candidate
`TIGER/2010/BlockGroups` succeeds, the resolver selects the second candidate
(and, provided styling succeeds, resolves the layer with it), and the third
candidate `TIGER/2010/Blocks_DP1` is never attempted: the resolver's result
does not depend on the environment's answer for it. -/
theorem fallback_selects_first_fetchable (env : Env) (ea : String)
    (hA : env.featureCollection "TIGER/2010/BG" = .error ea)
    (hB : env.featureCollection "TIGER/2010/BlockGroups" = .ok ()) :
    (bgFetchChain env).1 = .ok "TIGER/2010/BlockGroups"
    ∧ (env.styleCall "TIGER/2010/BlockGroups" bgStyle = .ok () →
        (get_block_groups_layer env).1 = .ok ("TIGER/2010/BlockGroups", bgStyle))
    ∧ (∀ f : String → Except String Unit,
        get_block_groups_layer
          { env with featureCollection := fun id =>
              if id = "TIGER/2010/Blocks_DP1" then f id else env.featureCollection id }
          = get_block_groups_layer env) := by
  refine ⟨?_, ?_, ?_⟩
  · simp [bgFetchChain, hA, hB]
  · intro hs
    simp [get_block_groups_layer, bgFetchChain, hA, hB, hs]
  · intro f
    have hne1 : ("TIGER/2010/BG" = "TIGER/2010/Blocks_DP1") = False := by decide
    have hne2 : ("TIGER/2010/BlockGroups" = "TIGER/2010/Blocks_DP1") = False := by decide
    simp [get_block_groups_layer, bgFetchChain, hA, hB, hne1, hne2]

/-- Witness for C3 at the concrete run `envBgFallback`. -/
theorem fallback_selects_first_fetchable_witness :
    envBgFallback.featureCollection "TIGER/2010/BG" = .error "nope"
    ∧ envBgFallback.featureCollection "TIGER/2010/BlockGroups" = .ok ()
    ∧ (bgFetchChain envBgFallback).1 = .ok "TIGER/2010/BlockGroups" :=
  ⟨rfl, rfl, (fallback_selects_first_fetchable envBgFallback "nope" rfl rfl).1⟩

/-- Claim C1: a Run Result of the dual-layer script is success-shaped if and
only if authentication succeeded and both configured layers resolved to a
Tile Result; and whenever some layer's resolution fails, the run exits with
code 1 and the Run Result output channel (stdout, the only machine-read
artifact) carries no Tile Result for any layer. -/
theorem all_or_nothing (env : Env) :
    (successShaped (main_full env) ↔
      (authOk env = true
       ∧ exceptOk (tractsChain env) = true
       ∧ exceptOk (bgResult env) = true))
    ∧ (∀ e : String, firstFailure env = some e →
        (main_full env).exitCode = 1 ∧ (main_full env).stdout = []) := by
  cases hinit : env.initRes with
  | error e0 =>
    constructor
    · constructor
      · intro hs
        rcases hs with ⟨d, hd, _⟩
        simp [main_full, authenticate_gee, hinit] at hd
      · rintro ⟨ha, -, -⟩
        simp [authOk, authenticate_gee, hinit] at ha
    · intro e _
      simp [main_full, authenticate_gee, hinit]
  | ok u =>
    cases u
    cases ht : tractsChain env with
    | error e1 =>
      constructor
      · constructor
        · intro hs
          rcases hs with ⟨d, hd, _⟩
          simp [main_full, authenticate_gee, hinit, generate_tile_urls, ht,
                dictGet, PyVal.truthy, pyStrOf] at hd
        · rintro ⟨-, htt, -⟩
          simp [exceptOk, ht] at htt
      · intro e _
        simp [main_full, authenticate_gee, hinit, generate_tile_urls, ht,
              dictGet, PyVal.truthy, pyStrOf]
    | ok tmd =>
      rcases hb : bgChain env with ⟨bres, blog⟩
      cases bres with
      | error e2 =>
        constructor
        · constructor
          · intro hs
            rcases hs with ⟨d, hd, _⟩
            simp [main_full, authenticate_gee, hinit, generate_tile_urls, ht, hb,
                  dictGet, PyVal.truthy, pyStrOf] at hd
          · rintro ⟨-, -, hbb⟩
            simp [exceptOk, bgResult, hb] at hbb
        · intro e _
          simp [main_full, authenticate_gee, hinit, generate_tile_urls, ht, hb,
                dictGet, PyVal.truthy, pyStrOf]
      | ok bmd =>
        constructor
        · have hout : successShaped (main_full env) := by
            refine ⟨[("success", .pybool true),
                     ("tracts_tile_url", .pystr tmd.tile_fetcher.url_format),
                     ("tracts_map_id", .pystr (tmd.mapid.getD "unknown")),
                     ("block_groups_tile_url", .pystr bmd.tile_fetcher.url_format),
                     ("block_groups_map_id", .pystr (bmd.mapid.getD "unknown"))], ?_, ?_⟩
            · simp [main_full, authenticate_gee, hinit, generate_tile_urls, ht, hb,
                    dictGet, PyVal.truthy]
            · simp [dictGet]
          refine iff_of_true hout ⟨?_, ?_, ?_⟩
          · simp [authOk, authenticate_gee, hinit]
          · simp [exceptOk]
          · simp [exceptOk, bgResult, hb]
        · intro e he
          simp [firstFailure, ht, bgResult, hb] at he

/-- Witness for C1 at the concrete all-success run `envAllOk`. -/
theorem all_or_nothing_witness :
    (successShaped (main_full envAllOk) ↔
      (authOk envAllOk = true
       ∧ exceptOk (tractsChain envAllOk) = true
       ∧ exceptOk (bgResult envAllOk) = true))
    ∧ (∀ e : String, firstFailure envAllOk = some e →
        (main_full envAllOk).exitCode = 1 ∧ (main_full envAllOk).stdout = []) :=
  all_or_nothing envAllOk

/-- Claim C4: whenever authentication succeeds and some layer resolution
fails (with `e` the first failure's message), the run produces the failure
JSON-shaped object — the dictionary with `success: False` and the error
message, returned by the tile-generation step — and the process exits with
code 1.  The last conjunct is the single-layer script's instance. -/
theorem resolver_failure_reports_failure (env : Env) (e : String)
    (hauth : env.initRes = .ok ())
    (hfail : firstFailure env = some e) :
    (∃ d : PyDict, (generate_tile_urls env).1 = .ok d
       ∧ dictGet "success" d = some (.pybool false)
       ∧ dictGet "error" d = some (.pystr e))
    ∧ (main_full env).exitCode = 1
    ∧ (tractsChain env = .error e →
        generate_tile_url env = .ok [("success", .pybool false), ("error", .pystr e)]
        ∧ (main1 env).exitCode = 1) := by
  cases ht : tractsChain env with
  | error e1 =>
    have he : e1 = e := by
      simp [firstFailure, ht] at hfail
      exact hfail
    subst he
    refine ⟨⟨[("success", .pybool false), ("error", .pystr e1)], ?_, ?_, ?_⟩, ?_, ?_⟩
    · simp [generate_tile_urls, ht]
    · simp [dictGet]
    · simp [dictGet]
    · simp [main_full, authenticate_gee, hauth, generate_tile_urls, ht,
            dictGet, PyVal.truthy, pyStrOf]
    · intro _
      constructor
      · simp [generate_tile_url, ht]
      · simp [main1, authenticate_gee, hauth, generate_tile_url, ht,
              dictGet, PyVal.truthy, pyStrOf]
  | ok tmd =>
    rcases hb : bgChain env with ⟨bres, blog⟩
    cases bres with
    | error e2 =>
      have he : e2 = e := by
        simp [firstFailure, ht, bgResult, hb] at hfail
        exact hfail
      subst he
      refine ⟨⟨[("success", .pybool false), ("error", .pystr e2)], ?_, ?_, ?_⟩, ?_, ?_⟩
      · simp [generate_tile_urls, ht, hb]
      · simp [dictGet]
      · simp [dictGet]
      · simp [main_full, authenticate_gee, hauth, generate_tile_urls, ht, hb,
              dictGet, PyVal.truthy, pyStrOf]
      · intro hc
        exact absurd hc (by simp)
    | ok bmd =>
      exfalso
      simp [firstFailure, ht, bgResult, hb] at hfail

/-- Witness for C4 at the concrete run `envTractsFail`, whose tracts fetch
raises with message `boom`. -/
theorem resolver_failure_reports_failure_witness :
    envTractsFail.initRes = .ok ()
    ∧ firstFailure envTractsFail = some "boom"
    ∧ ((∃ d : PyDict, (generate_tile_urls envTractsFail).1 = .ok d
         ∧ dictGet "success" d = some (.pybool false)
         ∧ dictGet "error" d = some (.pystr "boom"))
       ∧ (main_full envTractsFail).exitCode = 1
       ∧ (tractsChain envTractsFail = .error "boom" →
           generate_tile_url envTractsFail =
             .ok [("success", .pybool false), ("error", .pystr "boom")]
           ∧ (main1 envTractsFail).exitCode = 1)) :=
  ⟨rfl, by decide, resolver_failure_reports_failure envTractsFail "boom" rfl (by decide)⟩

/-- Claim C5: in the single-layer script, with a working session and a
successful tract resolution returning the example tile URL and map id
`abc123`, standard output is exactly the pretty-printed JSON object with
fields `success`, `tile_url`, `map_id` in that order (the exact byte string
is given in the last conjunct) and the exit code is 0. -/
theorem single_layer_success_output (env : Env)
    (hauth : env.initRes = .ok ())
    (hres : tractsChain env =
      .ok ⟨⟨"https://example.com/{z}/{x}/{y}.png"⟩, some "abc123"⟩) :
    (main1 env).stdout =
      [jsonDumps [("success", .pybool true),
                  ("tile_url", .pystr "https://example.com/{z}/{x}/{y}.png"),
                  ("map_id", .pystr "abc123")]]
    ∧ (main1 env).exitCode = 0
    ∧ (main1 env).stdout =
        ["\x7b\n  \"success\": true,\n  \"tile_url\": \"https://example.com/{z}/{x}/{y}.png\",\n  \"map_id\": \"abc123\"\n\x7d"] := by
  have h1 : (main1 env).stdout =
      [jsonDumps [("success", .pybool true),
                  ("tile_url", .pystr "https://example.com/{z}/{x}/{y}.png"),
                  ("map_id", .pystr "abc123")]] := by
    simp [main1, authenticate_gee, hauth, generate_tile_url, hres,
          dictGet, PyVal.truthy]
  refine ⟨h1, ?_, ?_⟩
  · simp [main1, authenticate_gee, hauth, generate_tile_url, hres,
          dictGet, PyVal.truthy]
  · rw [h1]
    rfl

/-- Witness for C5 at the concrete run `envAllOk`. -/
theorem single_layer_success_output_witness :
    envAllOk.initRes = .ok ()
    ∧ tractsChain envAllOk =
        .ok ⟨⟨"https://example.com/{z}/{x}/{y}.png"⟩, some "abc123"⟩
    ∧ ((main1 envAllOk).stdout =
        [jsonDumps [("success", .pybool true),
                    ("tile_url", .pystr "https://example.com/{z}/{x}/{y}.png"),
                    ("map_id", .pystr "abc123")]]
       ∧ (main1 envAllOk).exitCode = 0
       ∧ (main1 envAllOk).stdout =
           ["\x7b\n  \"success\": true,\n  \"tile_url\": \"https://example.com/{z}/{x}/{y}.png\",\n  \"map_id\": \"abc123\"\n\x7d"]) :=
  ⟨rfl, rfl, single_layer_success_output envAllOk rfl rfl⟩

/-- Claim C6: in the dual-layer script, when both layers resolve successfully
(tracts giving `T1`/`M1`, block groups giving `T2`/`M2`), the layers are
resolved tracts-first (visible in the fixed order of the stderr progress
lines), standard output is exactly the JSON object with fields `success`,
`tracts_tile_url`, `tracts_map_id`, `block_groups_tile_url`,
`block_groups_map_id` in that order, and the exit code is 0. -/
theorem dual_layer_success_output (env : Env) (T1 M1 T2 M2 : String)
    (blog : List String)
    (hauth : env.initRes = .ok ())
    (ht : tractsChain env = .ok ⟨⟨T1⟩, some M1⟩)
    (hb : bgChain env = (.ok ⟨⟨T2⟩, some M2⟩, blog)) :
    main_full env =
      ⟨[jsonDumps [("success", .pybool true),
                   ("tracts_tile_url", .pystr T1),
                   ("tracts_map_id", .pystr M1),
                   ("block_groups_tile_url", .pystr T2),
                   ("block_groups_map_id", .pystr M2)]],
       ["✓ Successfully authenticated with Google Earth Engine",
        "\n🌍 Generating GEE tile URLs for TIGER/2010 boundaries...\n",
        "Generating tile URL for census tracts...",
        "✓ Census tracts tile URL generated",
        "Generating tile URL for block groups..."] ++ blog
         ++ ["✓ Block groups tile URL generated",
             "\n✅ All tile URLs generated successfully\n"],
       0⟩ := by
  simp [main_full, authenticate_gee, hauth, generate_tile_urls, ht, hb,
        dictGet, PyVal.truthy]

/-- Witness for C6 at the concrete run `envAllOk`. -/
theorem dual_layer_success_output_witness :
    envAllOk.initRes = .ok ()
    ∧ tractsChain envAllOk = .ok ⟨⟨"https://example.com/{z}/{x}/{y}.png"⟩, some "abc123"⟩
    ∧ bgChain envAllOk =
        (.ok ⟨⟨"https://t2.example/{z}/{x}/{y}.png"⟩, some "bg777"⟩,
         ["✓ Using TIGER/2010/BG dataset"])
    ∧ main_full envAllOk =
      ⟨[jsonDumps [("success", .pybool true),
                   ("tracts_tile_url", .pystr "https://example.com/{z}/{x}/{y}.png"),
                   ("tracts_map_id", .pystr "abc123"),
                   ("block_groups_tile_url", .pystr "https://t2.example/{z}/{x}/{y}.png"),
                   ("block_groups_map_id", .pystr "bg777")]],
       ["✓ Successfully authenticated with Google Earth Engine",
        "\n🌍 Generating GEE tile URLs for TIGER/2010 boundaries...\n",
        "Generating tile URL for census tracts...",
        "✓ Census tracts tile URL generated",
        "Generating tile URL for block groups..."]
         ++ ["✓ Using TIGER/2010/BG dataset"]
         ++ ["✓ Block groups tile URL generated",
             "\n✅ All tile URLs generated successfully\n"],
       0⟩ :=
  ⟨rfl, rfl, rfl,
   dual_layer_success_output envAllOk
     "https://example.com/{z}/{x}/{y}.png" "abc123"
     "https://t2.example/{z}/{x}/{y}.png" "bg777"
     ["✓ Using TIGER/2010/BG dataset"] rfl rfl rfl⟩

/-- Claim C8: the Result Reporter is deterministic in its collaborators'
responses — two runs whose environments answer every external call
identically write byte-identical stdout (both scripts). -/
theorem deterministic_in_responses (enva envb : Env)
    (h1 : enva.initRes = envb.initRes)
    (h2 : ∀ id : String, enva.featureCollection id = envb.featureCollection id)
    (h3 : ∀ (id : String) (st : Style), enva.styleCall id st = envb.styleCall id st)
    (h4 : ∀ (id : String) (st : Style), enva.getMapId id st = envb.getMapId id st) :
    (main1 enva).stdout = (main1 envb).stdout
    ∧ (main_full enva).stdout = (main_full envb).stdout := by
  have heq : enva = envb := by
    cases enva with
    | mk i f s g =>
      cases envb with
      | mk i2 f2 s2 g2 =>
        simp only at h1 h2 h3 h4
        have hf : f = f2 := funext h2
        have hs : s = s2 := funext fun id => funext fun st => h3 id st
        have hg : g = g2 := funext fun id => funext fun st => h4 id st
        rw [h1, hf, hs, hg]
  rw [heq]
  exact ⟨rfl, rfl⟩

/-- Witness for C8: two literally equal environments. -/
theorem deterministic_in_responses_witness :
    (main1 envAllOk).stdout = (main1 envAllOk).stdout
    ∧ (main_full envAllOk).stdout = (main_full envAllOk).stdout :=
  deterministic_in_responses envAllOk envAllOk rfl
    (fun _ => rfl) (fun _ _ => rfl) (fun _ _ => rfl)

/-- Claim C9: when a layer resolves successfully but the `getMapId()`
response lacks the `mapid` entry, the reported map identifier is the literal
string `unknown`, and the tile URL is still taken from the response's
`tile_fetcher` — in the single-layer script and, for both layers, in the
dual-layer script. -/
theorem missing_mapid_reports_unknown (env : Env) (url burl : String)
    (ht : tractsChain env = .ok ⟨⟨url⟩, none⟩) :
    generate_tile_url env =
      .ok [("success", .pybool true),
           ("tile_url", .pystr url),
           ("map_id", .pystr "unknown")]
    ∧ (∀ blog : List String, bgChain env = (.ok ⟨⟨burl⟩, none⟩, blog) →
        (generate_tile_urls env).1 =
          .ok [("success", .pybool true),
               ("data", .pyobj [("tracts", ⟨url, "unknown"⟩),
                                ("block_groups", ⟨burl, "unknown"⟩)])]) := by
  constructor
  · simp [generate_tile_url, ht]
  · intro blog hb
    simp [generate_tile_urls, ht, hb]

/-- Witness for C9 at the concrete run `envNoMapid`, whose `getMapId()`
responses all lack the `mapid` entry. -/
theorem missing_mapid_reports_unknown_witness :
    tractsChain envNoMapid = .ok ⟨⟨"https://u.example/{z}/{x}/{y}.png"⟩, none⟩
    ∧ generate_tile_url envNoMapid =
        .ok [("success", .pybool true),
             ("tile_url", .pystr "https://u.example/{z}/{x}/{y}.png"),
             ("map_id", .pystr "unknown")] :=
  ⟨rfl,
   (missing_mapid_reports_unknown envNoMapid
     "https://u.example/{z}/{x}/{y}.png" "https://u.example/{z}/{x}/{y}.png" rfl).1⟩

/-- Claim C10: the tile-URL generation step is total at its boundary — for
every behaviour of the remote collaborators (including any fetch, style or
`getMapId()` call raising, in particular the dual-layer script's third,
unguarded block-group candidate), `generate_tile_url` and
`generate_tile_urls` never propagate an exception, and the returned
dictionary always has a boolean `success` entry and carries an `error`
string whenever `success` is false. -/
theorem tile_generation_total (env : Env) :
    (∃ d : PyDict, generate_tile_url env = .ok d
       ∧ (∃ b : Bool, dictGet "success" d = some (.pybool b))
       ∧ (dictGet "success" d = some (.pybool false) →
           ∃ e : String, dictGet "error" d = some (.pystr e)))
    ∧ (∃ d : PyDict, (generate_tile_urls env).1 = .ok d
       ∧ (∃ b : Bool, dictGet "success" d = some (.pybool b))
       ∧ (dictGet "success" d = some (.pybool false) →
           ∃ e : String, dictGet "error" d = some (.pystr e))) := by
  constructor
  · cases ht : tractsChain env with
    | error e =>
      exact ⟨[("success", .pybool false), ("error", .pystr e)],
             by simp [generate_tile_url, ht], ⟨false, by simp [dictGet]⟩,
             fun _ => ⟨e, by simp [dictGet]⟩⟩
    | ok md =>
      refine ⟨[("success", .pybool true),
               ("tile_url", .pystr md.tile_fetcher.url_format),
               ("map_id", .pystr (md.mapid.getD "unknown"))],
              by simp [generate_tile_url, ht], ⟨true, by simp [dictGet]⟩, ?_⟩
      intro hfalse
      simp [dictGet] at hfalse
  · cases ht : tractsChain env with
    | error e =>
      exact ⟨[("success", .pybool false), ("error", .pystr e)],
             by simp [generate_tile_urls, ht], ⟨false, by simp [dictGet]⟩,
             fun _ => ⟨e, by simp [dictGet]⟩⟩
    | ok tmd =>
      rcases hb : bgChain env with ⟨bres, blog⟩
      cases bres with
      | error e =>
        exact ⟨[("success", .pybool false), ("error", .pystr e)],
               by simp [generate_tile_urls, ht, hb], ⟨false, by simp [dictGet]⟩,
               fun _ => ⟨e, by simp [dictGet]⟩⟩
      | ok bmd =>
        refine ⟨[("success", .pybool true),
                 ("data", .pyobj [("tracts", ⟨tmd.tile_fetcher.url_format, tmd.mapid.getD "unknown"⟩),
                                  ("block_groups", ⟨bmd.tile_fetcher.url_format, bmd.mapid.getD "unknown"⟩)])],
                by simp [generate_tile_urls, ht, hb], ⟨true, by simp [dictGet]⟩, ?_⟩
        intro hfalse
        simp [dictGet] at hfalse

/-- Witness for C10 at the concrete run `envTractsFail`, which exercises the
failure arm. -/
theorem tile_generation_total_witness :
    (∃ d : PyDict, generate_tile_url envTractsFail = .ok d
       ∧ (∃ b : Bool, dictGet "success" d = some (.pybool b))
       ∧ (dictGet "success" d = some (.pybool false) →
           ∃ e : String, dictGet "error" d = some (.pystr e)))
    ∧ (∃ d : PyDict, (generate_tile_urls envTractsFail).1 = .ok d
       ∧ (∃ b : Bool, dictGet "success" d = some (.pybool b))
       ∧ (dictGet "success" d = some (.pybool false) →
           ∃ e : String, dictGet "error" d = some (.pystr e))) :=
  tile_generation_total envTractsFail
